import Mathlib

/-! Verification development for the Splunk MCP server core:
security scanner, trust-scoring middleware, and Splunk client job lifecycle.
All definitions are shallow embeddings of the TypeScript source. -/

set_option maxHeartbeats 1000000

namespace SplunkMCP

/-! ## Characters and JavaScript regex primitives

The scanner uses JavaScript regexes with the `i` flag.  We embed each
regex as a small syntax tree and a backtracking matcher; the `i` flag is
modelled by matching against the lowercased query.  Character classes
are modelled over ASCII (the source patterns are all ASCII). -/

/-- JavaScript word character, the class matched by a regex word boundary test. -/
def isWordChar (c : Char) : Bool := c.isAlphanum || c = '_'

/-- JavaScript whitespace class as used by the regex escape for whitespace
(ASCII portion). -/
def jsWhite (c : Char) : Bool :=
  c = ' ' || c = '\t' || c = '\n' || c = '\r' || c = '\x0b' || c = '\x0c'

/-- Characters matched by an unescaped dot in a JavaScript regex without the
s flag: anything except a line terminator. -/
def jsDot (c : Char) : Bool := !(c = '\n' || c = '\r')

/-- Regex syntax tree covering the constructs used by the scanner patterns. -/
inductive RE where
  | eps : RE
  | fail : RE
  | lit : List Char → RE
  | cls : (Char → Bool) → RE
  | starCls : (Char → Bool) → RE
  | seq : RE → RE → RE
  | alt : RE → RE → RE
  | wordB : RE

/-- Match zero or more characters of class p, then continue with k
(backtracking over every split point). -/
def matchStar (p : Char → Bool) (k : List Char → Bool) : List Char → Bool
  | [] => k []
  | c :: cs => k (c :: cs) || (p c && matchStar p k cs)

/-- Consume a literal character sequence, returning the rest on success. -/
def litMatch : List Char → List Char → Option (List Char)
  | [], cs => some cs
  | _ :: _, [] => none
  | a :: w, c :: cs => if a = c then litMatch w cs else none

/-- Continuation-passing matcher: match r against a prefix of cs, then k.
The word-boundary construct is used only after a word character in every
scanner pattern, so it checks that the next character is not a word
character (or that the input is exhausted). -/
def REmatch : RE → List Char → (List Char → Bool) → Bool
  | .eps, cs, k => k cs
  | .fail, _, _ => false
  | .lit w, cs, k =>
      match litMatch w cs with
      | some rest => k rest
      | none => false
  | .cls p, cs, k =>
      match cs with
      | [] => false
      | c :: rest => p c && k rest
  | .starCls p, cs, k => matchStar p k cs
  | .seq a b, cs, k => REmatch a cs (fun rest => REmatch b rest k)
  | .alt a b, cs, k => REmatch a cs k || REmatch b cs k
  | .wordB, cs, k =>
      (match cs with
       | [] => true
       | c :: _ => !isWordChar c) && k cs

/-- Search for a match of r at any start position (the semantics of the
JavaScript RegExp test method). -/
def RESearch (r : RE) : List Char → Bool
  | [] => REmatch r [] (fun _ => true)
  | c :: cs => REmatch r (c :: cs) (fun _ => true) || RESearch r cs

/-- Lowercased character sequence of a string (ASCII case folding, the
behaviour of the i flag on the all-ASCII scanner patterns). -/
def lowerChars (s : String) : List Char := s.data.map Char.toLower

/-- Model of RegExp.test with the i flag: search the lowercased text. -/
def RE.test (r : RE) (s : String) : Bool := RESearch r (lowerChars s)

/-- Literal regex piece from a string. -/
def rlit (s : String) : RE := RE.lit s.data

/-- Zero or more whitespace characters. -/
def ws0 : RE := .starCls jsWhite

/-- One or more whitespace characters. -/
def ws1 : RE := .seq (.cls jsWhite) ws0

/-- Alternation over a list of branches. -/
def alts (l : List RE) : RE := l.foldr .alt .fail

/-- Optional piece. -/
def ropt (r : RE) : RE := .alt r .eps

/-- Sequence of several pieces. -/
def seqs (l : List RE) : RE := l.foldr .seq .eps

/-- Shape of the pipe-command patterns: a pipe, optional whitespace, the
command word, and a trailing word boundary. -/
def pipeCmd (w : String) : RE := seqs [rlit "|", ws0, rlit w, .wordB]

/-- Gap permitted between a whitespace run and a following leading word
boundary: either nothing, or dot-class characters ending in a non-word
dot-class character (so that the boundary before the next literal holds). -/
def dotGapToWordStart : RE :=
  ropt (.seq (.starCls jsDot) (.cls (fun c => jsDot c && !isWordChar c)))

/-! ## Security scanner (src/security/scanner.ts)

Data model of ScanResult / SecurityIssue and the four pattern tables,
translated entry by entry from the source. -/

/-- Issue type tags from the SecurityIssue interface. -/
inductive IssueType where
  | injection
  | read_only_violation
  | prompt_injection
  | data_exfiltration
deriving DecidableEq, Repr

/-- Severity levels from the SecurityIssue interface. -/
inductive Severity where
  | low
  | medium
  | high
  | critical
deriving DecidableEq, Repr

/-- Risk levels of a ScanResult. -/
inductive Risk where
  | none
  | low
  | medium
  | high
  | critical
deriving DecidableEq, Repr

/-- String rendering of a risk level (template interpolation in the source). -/
def Risk.toText : Risk → String
  | .none => "none"
  | .low => "low"
  | .medium => "medium"
  | .high => "high"
  | .critical => "critical"

/-- SecurityIssue record. -/
structure SecurityIssue where
  type : IssueType
  severity : Severity
  description : String
  pattern : String
deriving DecidableEq, Repr

/-- ScanResult record. -/
structure ScanResult where
  safe : Bool
  risk : Risk
  issues : List SecurityIssue
deriving DecidableEq, Repr

/-- Rule of the read-only-violation table: regex, its source text, description. -/
structure RORule where
  source : String
  description : String
  pattern : RE

/-- Rule of the SPL-injection table, carrying its severity. -/
structure InjRule where
  source : String
  description : String
  severity : Severity
  pattern : RE

/-- READ_ONLY_VIOLATIONS table: pipe commands that modify data. -/
def READ_ONLY_VIOLATIONS : List RORule := [
  ⟨"\\|\\s*delete\\b", "DELETE command detected", pipeCmd "delete"⟩,
  ⟨"\\|\\s*collect\\b", "COLLECT command detected (writes to index)", pipeCmd "collect"⟩,
  ⟨"\\|\\s*outputcsv\\b", "OUTPUTCSV command detected", pipeCmd "outputcsv"⟩,
  ⟨"\\|\\s*outputlookup\\b", "OUTPUTLOOKUP command detected", pipeCmd "outputlookup"⟩,
  ⟨"\\|\\s*sendemail\\b", "SENDEMAIL command detected", pipeCmd "sendemail"⟩,
  ⟨"\\|\\s*sendalert\\b", "SENDALERT command detected", pipeCmd "sendalert"⟩,
  ⟨"\\|\\s*script\\b", "SCRIPT command detected", pipeCmd "script"⟩,
  ⟨"\\|\\s*run\\b", "RUN command detected", pipeCmd "run"⟩,
  ⟨"\\|\\s*runshellscript\\b", "RUNSHELLSCRIPT command detected", pipeCmd "runshellscript"⟩,
  ⟨"\\|\\s*mcollect\\b", "MCOLLECT command detected", pipeCmd "mcollect"⟩,
  ⟨"\\|\\s*meventcollect\\b", "MEVENTCOLLECT command detected", pipeCmd "meventcollect"⟩]

/-- SPL_INJECTION_PATTERNS table. -/
def SPL_INJECTION_PATTERNS : List InjRule := [
  ⟨"\\|\\s*eval\\s+.*\\bexec\\s*\\(", "Command execution via eval", .critical,
    seqs [rlit "|", ws0, rlit "eval", ws1, dotGapToWordStart, rlit "exec", ws0, rlit "("]⟩,
  ⟨"\\|\\s*python\\b", "Python script execution", .critical, pipeCmd "python"⟩,
  ⟨"\\|\\s*ruby\\b", "Ruby script execution", .critical, pipeCmd "ruby"⟩,
  ⟨"\\|\\s*perl\\b", "Perl script execution", .critical, pipeCmd "perl"⟩,
  ⟨"\\|\\s*rest\\s+\\/services\\/server\\/control", "Server control API access", .critical,
    seqs [rlit "|", ws0, rlit "rest", ws1, rlit "/services/server/control"]⟩,
  ⟨"\\|\\s*rest\\s+\\/services\\/admin", "Admin API access", .high,
    seqs [rlit "|", ws0, rlit "rest", ws1, rlit "/services/admin"]⟩,
  ⟨"\\|\\s*rest\\s+.*\\bpassword\\b", "Password-related API access", .high,
    seqs [rlit "|", ws0, rlit "rest", ws1, dotGapToWordStart, rlit "password", .wordB]⟩,
  ⟨"\\|\\s*inputcsv\\s+[^|]*\\.\\.", "Path traversal in inputcsv", .high,
    seqs [rlit "|", ws0, rlit "inputcsv", ws1, .starCls (fun c => c != '|'), rlit ".."]⟩,
  ⟨"\\|\\s*inputlookup\\s+[^|]*\\.\\.", "Path traversal in inputlookup", .high,
    seqs [rlit "|", ws0, rlit "inputlookup", ws1, .starCls (fun c => c != '|'), rlit ".."]⟩,
  ⟨"```[\\s\\S]*?\\|", "Markdown code block with pipe", .medium,
    seqs [rlit "```", .starCls (fun _ => true), rlit "|"]⟩,
  ⟨"\\[\\s*\\|\\s*makeresults", "Suspicious subsearch with makeresults", .medium,
    seqs [rlit "[", ws0, rlit "|", ws0, rlit "makeresults"]⟩]

/-- PROMPT_INJECTION_PATTERNS table. -/
def PROMPT_INJECTION_PATTERNS : List RORule := [
  ⟨"(ignore|override|skip|disable).*(previous|above|instruction|directive)",
    "Instruction override attempt",
    seqs [alts [rlit "ignore", rlit "override", rlit "skip", rlit "disable"],
          .starCls jsDot,
          alts [rlit "previous", rlit "above", rlit "instruction", rlit "directive"]]⟩,
  ⟨"(forget|disregard).*(rule|constraint|limitation)", "Rule bypass attempt",
    seqs [alts [rlit "forget", rlit "disregard"], .starCls jsDot,
          alts [rlit "rule", rlit "constraint", rlit "limitation"]]⟩,
  ⟨"pretend\\s+(you\\s+are|to\\s+be)", "Identity manipulation",
    seqs [rlit "pretend", ws1,
          alts [seqs [rlit "you", ws1, rlit "are"], seqs [rlit "to", ws1, rlit "be"]]]⟩,
  ⟨"you\\s+are\\s+now\\s+(a|an)", "Role reassignment",
    seqs [rlit "you", ws1, rlit "are", ws1, rlit "now", ws1, alts [rlit "a", rlit "an"]]⟩,
  ⟨"act\\s+as\\s+(if|though)", "Behavior modification",
    seqs [rlit "act", ws1, rlit "as", ws1, alts [rlit "if", rlit "though"]]⟩,
  ⟨"system\\s*:\\s*you\\s+are", "Fake system prompt",
    seqs [rlit "system", ws0, rlit ":", ws0, rlit "you", ws1, rlit "are"]⟩,
  ⟨"<\\/?system>", "System tag injection",
    alts [rlit "</system>", rlit "<system>"]⟩,
  ⟨"\\[INST\\]", "Instruction format injection", rlit "[inst]"⟩,
  ⟨"###\\s*(system|instruction|human|assistant)", "Format injection",
    seqs [rlit "###", ws0,
          alts [rlit "system", rlit "instruction", rlit "human", rlit "assistant"]]⟩,
  ⟨"new\\s+instructions?\\s*:", "New instructions injection",
    seqs [rlit "new", ws1, rlit "instruction", ropt (rlit "s"), ws0, rlit ":"]⟩]

/-- Character allowed after the scheme separator of an embedded URL:
anything except whitespace, double quote, single quote or closing bracket. -/
def urlChar (c : Char) : Bool := !(jsWhite c) && c != '"' && c != '\x27' && c != ']'

/-- DATA_EXFILTRATION_PATTERNS table. -/
def DATA_EXFILTRATION_PATTERNS : List RORule := [
  ⟨"\\|\\s*curl\\b", "HTTP request via curl", pipeCmd "curl"⟩,
  ⟨"\\|\\s*wget\\b", "HTTP request via wget", pipeCmd "wget"⟩,
  ⟨"https?:\\/\\/[^\\s\"\x27\\]]+", "External URL reference",
    seqs [rlit "http", ropt (rlit "s"), rlit "://", .cls urlChar, .starCls urlChar]⟩,
  ⟨"\\|\\s*rest\\s+https?:\\/\\/", "External REST call",
    seqs [rlit "|", ws0, rlit "rest", ws1, rlit "http", ropt (rlit "s"), rlit "://"]⟩]

/-- Overall risk level from a list of issues (determineRiskLevel in the source). -/
def determineRiskLevel (issues : List SecurityIssue) : Risk :=
  if issues.isEmpty then .none
  else if issues.any (fun i => i.severity == .critical) then .critical
  else if issues.any (fun i => i.severity == .high) then .high
  else if issues.any (fun i => i.severity == .medium) then .medium
  else .low

/-- Issues collected by scanQuery: fold each pattern table in order,
collecting an issue per matching pattern. -/
def scanIssues (query : String) : List SecurityIssue :=
  (READ_ONLY_VIOLATIONS.filter (fun r => r.pattern.test query)).map
    (fun r => { type := IssueType.read_only_violation, severity := Severity.critical,
                description := r.description, pattern := r.source }) ++
  (SPL_INJECTION_PATTERNS.filter (fun r => r.pattern.test query)).map
    (fun r => { type := IssueType.injection, severity := r.severity,
                description := r.description, pattern := r.source }) ++
  (PROMPT_INJECTION_PATTERNS.filter (fun r => r.pattern.test query)).map
    (fun r => { type := IssueType.prompt_injection, severity := Severity.high,
                description := r.description, pattern := r.source }) ++
  (DATA_EXFILTRATION_PATTERNS.filter (fun r => r.pattern.test query)).map
    (fun r => { type := IssueType.data_exfiltration, severity := Severity.medium,
                description := r.description, pattern := r.source })

/-- Scan a query for security issues (scanQuery in the source). -/
def scanQuery (query : String) : ScanResult :=
  { safe := (scanIssues query).isEmpty,
    risk := determineRiskLevel (scanIssues query),
    issues := scanIssues query }

/-- Typed errors thrown by the scanner (types.ts error classes). -/
inductive ScannerError where
  | readOnlyViolationError (message : String)
  | injectionError (message : String)
  | securityError (message : String)
deriving DecidableEq, Repr

deriving instance DecidableEq for Except

/-- Scan a query and fail if unsafe (assertQuerySafe in the source):
read-only violations first, then critical issues, then a generic error. -/
def assertQuerySafe (query : String) : Except ScannerError Unit :=
  let result := scanQuery query
  if result.safe then .ok ()
  else
    let criticalIssues := result.issues.filter (fun i => i.severity == .critical)
    let readOnlyViolations := result.issues.filter (fun i => i.type == .read_only_violation)
    if readOnlyViolations.length > 0 then
      .error (.readOnlyViolationError
        ("Query contains read-only violations: " ++
          String.intercalate ", " (readOnlyViolations.map (fun i => i.description))))
    else if criticalIssues.length > 0 then
      .error (.injectionError
        ("Query contains critical security issues: " ++
          String.intercalate ", " (criticalIssues.map (fun i => i.description))))
    else
      .error (.securityError
        ("Query failed security scan (" ++ result.risk.toText ++ " risk): " ++
          String.intercalate ", " (result.issues.map (fun i => i.description))))

/-- Model of a tool-call parameter value as inspected by scanParameters:
a string, an array, or any other value (ignored by the scanner). -/
inductive ParamValue where
  | str : String → ParamValue
  | arr : List ParamValue → ParamValue
  | other : ParamValue

/-- Issues contributed by one parameter entry of scanParameters. -/
def paramIssues (key : String) : ParamValue → List SecurityIssue
  | .str s =>
      ((scanQuery s).issues).map
        (fun i => { i with description := "[" ++ key ++ "] " ++ i.description })
  | .arr items =>
      items.flatMap (fun item =>
        match item with
        | .str s =>
            ((scanQuery s).issues).map
              (fun i => { i with description := "[" ++ key ++ "[]] " ++ i.description })
        | _ => [])
  | .other => []

/-- Issues collected by scanParameters over a parameter record. -/
def scanParamIssues (params : List (String × ParamValue)) : List SecurityIssue :=
  params.flatMap (fun kv => paramIssues kv.1 kv.2)

/-- Scan input parameters for injection attempts (scanParameters in the
source): every string value and every string element of an array value is
scanned with scanQuery, with the issue description prefixed by the key. -/
def scanParameters (params : List (String × ParamValue)) : ScanResult :=
  { safe := (scanParamIssues params).isEmpty,
    risk := determineRiskLevel (scanParamIssues params),
    issues := scanParamIssues params }

/-! ## Claim-side definitions for the scanner

These follow the wording of the specification, to be compared with the
definitions taken from the source. -/

/-- Rank of a risk level, for taking maxima. -/
def riskRank : Risk → Nat
  | .none => 0
  | .low => 1
  | .medium => 2
  | .high => 3
  | .critical => 4

/-- Risk level corresponding to an issue severity. -/
def sevRisk : Severity → Risk
  | .low => .low
  | .medium => .medium
  | .high => .high
  | .critical => .critical

/-- The larger of two risk levels. -/
def riskMax (a b : Risk) : Risk := if riskRank b ≤ riskRank a then a else b

/-- Maximum severity present in a list of issues, as a risk level; the
bottom risk level when the list is empty.  This is the specification's
description of the risk field of a verdict. -/
def maxRisk (issues : List SecurityIssue) : Risk :=
  issues.foldr (fun i acc => riskMax (sevRisk i.severity) acc) Risk.none

/-- A query matching none of the listed patterns of the four tables. -/
def matchesNoPattern (q : String) : Bool :=
  READ_ONLY_VIOLATIONS.all (fun r => !(r.pattern.test q)) &&
  SPL_INJECTION_PATTERNS.all (fun r => !(r.pattern.test q)) &&
  PROMPT_INJECTION_PATTERNS.all (fun r => !(r.pattern.test q)) &&
  DATA_EXFILTRATION_PATTERNS.all (fun r => !(r.pattern.test q))

/-- A verdict contains a read-only-violation issue. -/
def hasReadOnlyIssue (r : ScanResult) : Bool :=
  r.issues.any (fun i => i.type == IssueType.read_only_violation)

/-- A verdict contains a critical-severity issue. -/
def hasCriticalIssue (r : ScanResult) : Bool :=
  r.issues.any (fun i => i.severity == Severity.critical)

/-- Safety of a single parameter value under the scanner, per the
specification: a string is safe when scanQuery accepts it, an array is
safe when every string element is, anything else is ignored. -/
def paramValueSafe : ParamValue → Bool
  | .str s => (scanQuery s).safe
  | .arr items =>
      items.all (fun item =>
        match item with
        | .str s => (scanQuery s).safe
        | _ => true)
  | .other => true

/-! ## Trust scorer (src/trust/etl-middleware.ts and src/types.ts)

Scores are rationals; timestamps are integer epoch milliseconds.  The
date-fns parseISO call is modelled by an abstract parse function in the
evaluation environment, where a none result models a timestamp the
library cannot interpret (the catch branch of the source). -/

/-- JSON-like value, used for backend-reported event attributes. -/
inductive JValue where
  | str : String → JValue
  | num : Int → JValue
  | boolean : Bool → JValue
  | null : JValue
deriving DecidableEq, Repr

/-- Event record from types.ts (Zod EventSchema). -/
structure Event where
  _time : String
  _raw : String
  _indextime : Option String := Option.none
  host : Option String := Option.none
  source : Option String := Option.none
  sourcetype : Option String := Option.none
  index : Option String := Option.none
  fields : List (String × JValue) := []
deriving DecidableEq, Repr

/-- SplunkSearchResult record from types.ts. -/
structure SplunkSearchResult where
  events : List Event
  totalEvents : Int
  returnedEvents : Int
  truncated : Bool
  searchId : String
  executionTimeMs : Int
  error : Option String := Option.none
  aggregations : Option (List (String × JValue)) := Option.none
deriving DecidableEq, Repr

/-- Trust dimension scores from types.ts. -/
structure TrustDimension where
  authority : ℚ
  freshness : ℚ
  completeness : ℚ
  coherence : ℚ
  integrity : ℚ
  trackRecord : ℚ
  corroboration : Option ℚ := Option.none
deriving DecidableEq, Repr

/-- Trust factors record from types.ts. -/
structure TrustFactors where
  factors : List String
  warnings : List String
  missingFields : List String
deriving DecidableEq, Repr

/-- Threshold decision from types.ts. -/
inductive TrustThresholdDecision where
  | PROCEED
  | CAUTION
  | DONT_RELY
deriving DecidableEq, Repr

/-- Trust metadata record from types.ts (computedAt as epoch milliseconds). -/
structure TrustMetadata where
  compositeScore : ℚ
  thresholdDecision : TrustThresholdDecision
  dimensions : TrustDimension
  factors : TrustFactors
  agentDirective : String
  computedAt : Int
deriving DecidableEq, Repr

/-- Evaluation environment of the middleware: the model of date-fns
parseISO and the current time in epoch milliseconds.  parseISO never
throws on a string input; a timestamp it cannot interpret yields an
invalid date, modelled as none, whose hour difference is NaN and
therefore fails every comparison. -/
structure EtlEnv where
  parseTime : String → Option Int
  now : Int

/-- Trust thresholds from the configuration. -/
structure EtlSettings where
  trustThresholdProceed : ℚ
  trustThresholdCaution : ℚ
deriving DecidableEq, Repr

/-- Truthiness of the optional error string (a JavaScript empty string is
falsy). -/
def errTruthy (r : SplunkSearchResult) : Bool :=
  match r.error with
  | Option.some s => s != ""
  | Option.none => false

/-- Truthiness of the search id string. -/
def searchIdTruthy (r : SplunkSearchResult) : Bool := r.searchId != ""

/-- Truthiness of the aggregations value (any object is truthy). -/
def aggTruthy (r : SplunkSearchResult) : Bool := r.aggregations.isSome

/-- Truthiness of an optional string attribute. -/
def optTruthy (o : Option String) : Bool :=
  match o with
  | Option.some s => s != ""
  | Option.none => false

/-- A string that is empty or whitespace-only (falsy raw text, or raw text
whose trim is empty, as tested by computeIntegrity). -/
def jsBlank (s : String) : Bool := s.data.all jsWhite

/-- Keep the part of a timestamp before the first dot (the fractional
second stripping performed before parsing: the head of the dot-split is
the run of characters before the first dot). -/
def stripFrac (s : String) : String := String.mk (s.data.takeWhile (fun c => c != '.'))

/-- Model of date-fns differenceInHours: millisecond difference divided by
an hour, truncated toward zero. -/
def differenceInHours (a b : Int) : Int := Int.tdiv (a - b) 3600000

/-- Freshness dimension (computeFreshness in the source): 0.5 with no
events; otherwise the loop parses each timestamp and increments the
total count unconditionally (parseISO and differenceInHours never throw
on the string timestamps the schema guarantees, so the catch branch is
unreachable) and the recent count when the age test passes — an
unparsable timestamp gives a NaN age that fails the test, so it counts
in the denominator but never the numerator.  The inner zero-total guard
of the source is kept although it cannot fire here. -/
def computeFreshness (env : EtlEnv) (result : SplunkSearchResult) : ℚ :=
  if result.events.length = 0 then 0.5
  else
    let totalCount := result.events.length
    let recentCount := (result.events.filter (fun e =>
      match env.parseTime (stripFrac e._time) with
      | Option.some t => differenceInHours env.now t ≤ 24
      | Option.none => false)).length
    if totalCount = 0 then 0.5
    else (recentCount : ℚ) / (totalCount : ℚ)

/-- Completeness dimension with the set of missing fields
(computeCompletenessWithDetails in the source). -/
def computeCompletenessWithDetails (result : SplunkSearchResult) : ℚ × List String :=
  if result.events.length = 0 then (0, [])
  else
    let perEvent := result.events.map (fun e =>
      let requiredBad := e._time = "" || e._raw = ""
      let missingReq : List String :=
        if requiredBad then
          (if e._time = "" then ["_time"] else []) ++ (if e._raw = "" then ["_raw"] else [])
        else []
      let commonMissing : List String :=
        (if optTruthy e.source then [] else ["source"]) ++
        (if optTruthy e.host then [] else ["host"]) ++
        (if optTruthy e.sourcetype then [] else ["sourcetype"])
      let commonBad := commonMissing.length > 1
      let complete := !requiredBad && !commonBad
      (complete, missingReq ++ (if commonBad then commonMissing else [])))
    let completeCount := (perEvent.filter (fun pe => pe.1)).length
    let missing := perEvent.flatMap (fun pe => pe.2)
    ((completeCount : ℚ) / (result.events.length : ℚ),
      missing.foldl (fun acc s => if s ∈ acc then acc else acc ++ [s]) [])

/-- Lexicographic comparison of character lists by code point. -/
def charsLe : List Char → List Char → Bool
  | [], _ => true
  | _ :: _, [] => false
  | a :: as, b :: bs => if a = b then charsLe as bs else decide (a < b)

/-- Insert a string into a sorted list (model of the JavaScript array sort
applied to field names). -/
def insertSorted (s : String) : List String → List String
  | [] => [s]
  | t :: ts => if charsLe s.data t.data then s :: t :: ts else t :: insertSorted s ts

/-- Sort a list of strings lexicographically. -/
def sortStrings (l : List String) : List String := l.foldr insertSorted []

/-- First-occurrence deduplication (the JavaScript Set spread). -/
def jsSetDedup (l : List String) : List String :=
  l.foldl (fun acc s => if s ∈ acc then acc else acc ++ [s]) []

/-- Field-shape key of an event: its sorted field names joined by commas. -/
def fieldKey (e : Event) : String :=
  String.intercalate "," (sortStrings (e.fields.map Prod.fst))

/-- Coherence dimension (computeCoherence in the source). -/
def computeCoherence (result : SplunkSearchResult) : ℚ :=
  if result.events.length = 0 then 0.5
  else
    let keys := result.events.map fieldKey
    let distinct := jsSetDedup keys
    let s1 : ℚ :=
      if distinct.length > 1 then
        let maxCount := (distinct.map (fun k => (keys.filter (fun k2 => k2 == k)).length)).foldr max 0
        if (maxCount : ℚ) / (result.events.length : ℚ) < 0.8 then 1 - 0.2 else 1
      else 1
    let s2 := if result.truncated then s1 - 0.1 else s1
    max 0 (min 1 s2)

/-- Integrity dimension (computeIntegrity in the source). -/
def computeIntegrity (result : SplunkSearchResult) : ℚ :=
  let s1 : ℚ := if errTruthy result then 1 - 0.5 else 1
  let s2 : ℚ :=
    if result.events.length > 0 then
      let invalidCount := (result.events.filter (fun e => jsBlank e._raw)).length
      s1 - ((invalidCount : ℚ) / (result.events.length : ℚ)) * 0.3
    else s1
  let s3 : ℚ :=
    if searchIdTruthy result && result.executionTimeMs > 0 then
      if result.executionTimeMs < 100 then s2 + 0.05 else s2
    else s2
  max 0 (min 1 s3)

/-- Authority dimension (computeAuthority in the source). -/
def computeAuthority (result : SplunkSearchResult) : ℚ :=
  let s1 : ℚ := 0.8
  let s2 := if searchIdTruthy result && !errTruthy result then s1 + 0.1 else s1
  let s3 := if aggTruthy result then s2 + 0.1 else s2
  min 1 s3

/-- Track-record dimension (computeTrackRecord in the source). -/
def computeTrackRecord (result : SplunkSearchResult) : ℚ :=
  let s1 : ℚ := 0.7
  let s2 := if searchIdTruthy result && !errTruthy result then s1 + 0.2 else s1
  let s3 := if result.executionTimeMs > 0 && result.executionTimeMs < 5000 then s2 + 0.1 else s2
  min 1 s3

/-- All dimensions plus the missing-field list captured by the
completeness computation (computeDimensions in the source; corroboration
is not implemented and stays unset). -/
def computeDimensions (env : EtlEnv) (result : SplunkSearchResult) :
    TrustDimension × List String :=
  let completenessResult := computeCompletenessWithDetails result
  ({ authority := computeAuthority result,
     freshness := computeFreshness env result,
     completeness := completenessResult.1,
     coherence := computeCoherence result,
     integrity := computeIntegrity result,
     trackRecord := computeTrackRecord result,
     corroboration := Option.none }, completenessResult.2)

/-- Two-decimal fixed rendering of a rational (Number.prototype.toFixed
with two digits: nearest hundredth, ties toward the larger value). -/
def jsToFixed2 (q : ℚ) : String :=
  let n : Int := Int.floor (q * 100 + 1 / 2)
  let sign := if n < 0 then "-" else ""
  let m := n.natAbs
  sign ++ toString (m / 100) ++ "." ++ (if m % 100 < 10 then "0" else "") ++ toString (m % 100)

/-- Factors and warnings from a result and its dimensions (generateFactors
in the source; executionTimeMs is integral, so the Math.round in the slow
warning is the identity). -/
def generateFactors (result : SplunkSearchResult) (dimensions : TrustDimension)
    (lastMissingFields : List String) : TrustFactors :=
  { factors :=
      (if dimensions.authority ≥ 0.8 then ["High authority data source (Splunk)"] else []) ++
      (if dimensions.freshness ≥ 0.7 then ["Recent data (within 24 hours)"] else []) ++
      (if aggTruthy result then ["Aggregations available for analysis"] else []) ++
      (if !errTruthy result then ["Query executed successfully"] else []) ++
      (if result.executionTimeMs < 2000 then ["Fast query execution"] else []),
    warnings :=
      (if dimensions.completeness < 0.7 then
        ["Low completeness (" ++ jsToFixed2 dimensions.completeness ++
          "): some events missing required fields"] else []) ++
      (if dimensions.freshness < 0.5 then
        ["Stale data: freshness score " ++ jsToFixed2 dimensions.freshness] else []) ++
      (if result.truncated then
        ["Results truncated: " ++ toString result.returnedEvents ++ " of " ++
          toString result.totalEvents ++ " events returned"] else []) ++
      (if errTruthy result then
        ["Query error: " ++ result.error.getD ""] else []) ++
      (if dimensions.coherence < 0.7 then
        ["Low coherence: inconsistent event structure"] else []) ++
      (if result.executionTimeMs > 10000 then
        ["Slow query execution: " ++ toString result.executionTimeMs ++ "ms"] else []),
    missingFields := lastMissingFields }

/-- Threshold decision from the composite score (determineThresholdDecision
in the source). -/
def determineThresholdDecision (settings : EtlSettings) (compositeScore : ℚ) :
    TrustThresholdDecision :=
  if compositeScore ≥ settings.trustThresholdProceed then .PROCEED
  else if compositeScore ≥ settings.trustThresholdCaution then .CAUTION
  else .DONT_RELY

/-- Agent directive text (generateDirective in the source). -/
def generateDirective (decision : TrustThresholdDecision) (score : ℚ)
    (factors : TrustFactors) : String :=
  let directive :=
    match decision with
    | .PROCEED =>
        "PROCEED with confidence. Trust score: " ++ jsToFixed2 score ++
          ". Data quality is high and suitable for triage decisions. "
    | .CAUTION =>
        "PROCEED WITH CAUTION. Trust score: " ++ jsToFixed2 score ++
          ". Review the following concerns before making triage decisions: " ++
          String.intercalate "; " (factors.warnings.take 3) ++ ". "
    | .DONT_RELY =>
        "DO NOT RELY on this data for triage decisions. Trust score: " ++ jsToFixed2 score ++
          ". Significant concerns: " ++ String.intercalate "; " (factors.warnings.take 3) ++
          ". Request additional data sources or manual review."
  if factors.factors.length > 0 then
    directive ++ " Positive factors: " ++ String.intercalate ", " (factors.factors.take 2) ++ "."
  else directive

/-- Trust metadata for a search result (computeTrust in the source). -/
def computeTrust (env : EtlEnv) (settings : EtlSettings)
    (result : SplunkSearchResult) : TrustMetadata :=
  let dimsPair := computeDimensions env result
  let dimensions := dimsPair.1
  let base :=
    dimensions.authority * 0.2 + dimensions.freshness * 0.2 +
    dimensions.completeness * 0.2 + dimensions.coherence * 0.15 +
    dimensions.integrity * 0.15 + dimensions.trackRecord * 0.1
  let compositeScore :=
    match dimensions.corroboration with
    | Option.some c => base * 0.9 + c * 0.1
    | Option.none => base
  let thresholdDecision := determineThresholdDecision settings compositeScore
  let factors := generateFactors result dimensions dimsPair.2
  let agentDirective := generateDirective thresholdDecision compositeScore factors
  { compositeScore := compositeScore, thresholdDecision := thresholdDecision,
    dimensions := dimensions, factors := factors,
    agentDirective := agentDirective, computedAt := env.now }

/-! ## Claim-side definitions for the trust scorer -/

/-- An event whose timestamp the environment can parse. -/
def eventParsable (env : EtlEnv) (e : Event) : Bool :=
  (env.parseTime (stripFrac e._time)).isSome

/-- An event whose timestamp parses and lies within 24 hours of the
evaluation time, in the sense used by the scorer. -/
def eventRecent (env : EtlEnv) (e : Event) : Bool :=
  match env.parseTime (stripFrac e._time) with
  | Option.some t => differenceInHours env.now t ≤ 24
  | Option.none => false

/-- Freshness as worded by the claim: 0.5 with zero events or when every
timestamp is unparsable, otherwise the fraction of all events whose
timestamp lies within 24 hours of the evaluation time. -/
def freshnessClaim (env : EtlEnv) (result : SplunkSearchResult) : ℚ :=
  if result.events.length = 0 || result.events.all (fun e => !eventParsable env e) then 0.5
  else ((result.events.filter (fun e => eventRecent env e)).length : ℚ) /
    (result.events.length : ℚ)

/-- Freshness as amended: 0.5 with zero events; otherwise the fraction,
among all events, of those whose timestamp parses and lies within 24
hours of the evaluation time — an unparsable timestamp counts in the
denominator but never the numerator, so a nonempty all-unparsable result
scores 0, not 0.5. -/
def freshnessAmended (env : EtlEnv) (result : SplunkSearchResult) : ℚ :=
  if result.events.length = 0 then 0.5
  else ((result.events.filter (fun e => eventRecent env e)).length : ℚ) /
    (result.events.length : ℚ)

/-- Integrity as worded by the claim: 1.0, minus 0.5 on error, minus 0.3
times the fraction of events with blank raw text, plus 0.05 when execution
took under 100 milliseconds with no error, clamped to the unit interval. -/
def integrityClaim (result : SplunkSearchResult) : ℚ :=
  let penalty : ℚ := if errTruthy result then 0.5 else 0
  let blankFrac : ℚ :=
    if result.events.length > 0 then
      ((result.events.filter (fun e => jsBlank e._raw)).length : ℚ) /
        (result.events.length : ℚ)
    else 0
  let boost : ℚ :=
    if result.executionTimeMs < 100 && !errTruthy result then 0.05 else 0
  max 0 (min 1 (1 - penalty - blankFrac * 0.3 + boost))

/-- Integrity as amended: the 0.05 boost requires a truthy search id and an
execution time strictly between 0 and 100 milliseconds, and does not
depend on the error. -/
def integrityAmended (result : SplunkSearchResult) : ℚ :=
  let penalty : ℚ := if errTruthy result then 0.5 else 0
  let blankFrac : ℚ :=
    if result.events.length > 0 then
      ((result.events.filter (fun e => jsBlank e._raw)).length : ℚ) /
        (result.events.length : ℚ)
    else 0
  let boost : ℚ :=
    if searchIdTruthy result && result.executionTimeMs > 0 && result.executionTimeMs < 100
    then 0.05 else 0
  max 0 (min 1 (1 - penalty - blankFrac * 0.3 + boost))

/-! ## Server trust pipeline (src/server.ts)

computeTrustForResult converts a tool result into a SplunkSearchResult
with the error and aggregations fields hardwired to undefined, applying
JavaScript or-defaults to the metadata fields. -/

/-- Metadata object attached to a tool result, as probed by the server. -/
structure ToolMetadata where
  totalCount : Option Int := Option.none
  truncated : Option Bool := Option.none
  searchId : Option String := Option.none
  executionTimeMs : Option Int := Option.none
deriving DecidableEq, Repr

/-- JavaScript or-default on an optional number (zero is falsy). -/
def jsOrInt (v : Option Int) (d : Int) : Int :=
  match v with
  | Option.some n => if n = 0 then d else n
  | Option.none => d

/-- JavaScript or-default on an optional string (the empty string is falsy). -/
def jsOrStr (v : Option String) (d : String) : String :=
  match v with
  | Option.some s => if s = "" then d else s
  | Option.none => d

/-- JavaScript or-false on an optional boolean. -/
def jsOrBool (v : Option Bool) : Bool :=
  match v with
  | Option.some b => b
  | Option.none => false

/-- The SplunkSearchResult assembled by computeTrustForResult before it is
handed to computeTrust: error and aggregations are always undefined. -/
def serverSearchResult (events : List Event) (metadata : ToolMetadata) :
    SplunkSearchResult :=
  { events := events,
    totalEvents := jsOrInt metadata.totalCount events.length,
    returnedEvents := events.length,
    truncated := jsOrBool metadata.truncated,
    searchId := jsOrStr metadata.searchId "unknown",
    executionTimeMs := jsOrInt metadata.executionTimeMs 0,
    error := Option.none,
    aggregations := Option.none }

/-- Trust metadata computed by the server pipeline for a tool result
(computeTrustForResult in the source, with the Zod parse a no-op on the
typed model). -/
def computeTrustForResult (env : EtlEnv) (settings : EtlSettings)
    (events : List Event) (metadata : ToolMetadata) : TrustMetadata :=
  computeTrust env settings (serverSearchResult events metadata)

/-- Prefix test on strings by character lists. -/
def strHasPrefix (p s : String) : Bool := s.data.take p.data.length == p.data

/-! ## Splunk client (src/splunk/client.ts)

The client composes HTTP calls; the embedding models the pure result
assembly (event parsing, the search-result records of search and
runSavedSearch) and the waitForJob polling loop over an abstract sequence
of backend job statuses. -/

/-- Raw backend event: a JSON object, as a key/value list. -/
def RawSplunkEvent := List (String × JValue)

/-- Look up a property of a raw event. -/
def jField (raw : RawSplunkEvent) (k : String) : Option JValue :=
  (raw.find? (fun kv => kv.1 == k)).map (fun kv => kv.2)

/-- JavaScript truthiness of a JSON value. -/
def jsTruthy : JValue → Bool
  | .str s => s != ""
  | .num n => n != 0
  | .boolean b => b
  | .null => false

/-- Validation of a required string field fed through an or-empty-string
default: an absent or falsy value becomes the empty string, a truthy
non-string fails the Zod string check. -/
def zReq (v : Option JValue) : Option String :=
  match v with
  | Option.none => Option.some ""
  | Option.some (.str s) => Option.some s
  | Option.some w => if jsTruthy w then Option.none else Option.some ""

/-- Validation of an optional string field: absent is fine, a present
non-string (including null) fails the Zod check. -/
def zOpt (v : Option JValue) : Option (Option String) :=
  match v with
  | Option.none => Option.some Option.none
  | Option.some (.str s) => Option.some (Option.some s)
  | Option.some _ => Option.none

/-- Keys promoted out of a raw event into named attributes. -/
def promotedKeys : List String :=
  ["_time", "_raw", "_indextime", "host", "source", "sourcetype", "index"]

/-- Parse one raw event against the Event schema (the safeParse call in
parseEvents); none models a schema failure, which drops the record. -/
def parseEvent (raw : RawSplunkEvent) : Option Event := do
  let t ← zReq (jField raw "_time")
  let r ← zReq (jField raw "_raw")
  let it ← zOpt (jField raw "_indextime")
  let h ← zOpt (jField raw "host")
  let s ← zOpt (jField raw "source")
  let st ← zOpt (jField raw "sourcetype")
  let ix ← zOpt (jField raw "index")
  Option.some
    { _time := t, _raw := r, _indextime := it, host := h, source := s,
      sourcetype := st, index := ix,
      fields := raw.filter (fun kv => !(promotedKeys.contains kv.1)) }

/-- Parse raw events, dropping records that fail the schema (parseEvents
in the source). -/
def parseEvents (rawEvents : List RawSplunkEvent) : List Event :=
  rawEvents.filterMap parseEvent

/-- Search result returned by the client (the SearchResult interface of
client.ts). -/
structure ClientSearchResult where
  events : List Event
  totalCount : Int
  searchId : String
  executionTimeMs : Int
  truncated : Bool
deriving DecidableEq, Repr

/-- Result record assembled at the end of SplunkClient.search:
truncated compares the job resultCount against the requested cap. -/
def searchResultOf (sid : String) (rawEvents : List RawSplunkEvent)
    (statusResultCount : Int) (maxResults : Int) (executionTimeMs : Int) :
    ClientSearchResult :=
  { events := parseEvents rawEvents,
    totalCount := statusResultCount,
    searchId := sid,
    executionTimeMs := executionTimeMs,
    truncated := statusResultCount > maxResults }

/-- Result record assembled at the end of SplunkClient.runSavedSearch:
identical to search but capped by the configured maxResults setting. -/
def runSavedSearchResultOf (sid : String) (rawEvents : List RawSplunkEvent)
    (statusResultCount : Int) (settingsMaxResults : Int) (executionTimeMs : Int) :
    ClientSearchResult :=
  { events := parseEvents rawEvents,
    totalCount := statusResultCount,
    searchId := sid,
    executionTimeMs := executionTimeMs,
    truncated := statusResultCount > settingsMaxResults }

/-- Message attached to a job status. -/
structure JobMessage where
  type : String
  text : String
deriving DecidableEq, Repr

/-- Job status record (SplunkJobStatus in splunk/types.ts; only the fields
read by waitForJob matter to the loop). -/
structure SplunkJobStatus where
  sid : String := ""
  dispatchState : String := ""
  doneProgress : ℚ := 0
  scanCount : Int := 0
  eventCount : Int := 0
  resultCount : Int := 0
  isDone : Bool := false
  isFailed : Bool := false
  isFinalized : Bool := false
  isPaused : Bool := false
  isPreviewEnabled : Bool := false
  isRealTimeSearch : Bool := false
  isSaved : Bool := false
  isZombie : Bool := false
  messages : List JobMessage := []
deriving DecidableEq, Repr

/-- SplunkAPIError record: message, optional HTTP status, retryability. -/
structure SplunkAPIError where
  message : String
  statusCode : Option Int := Option.none
  isRetryable : Bool := false
deriving DecidableEq, Repr

/-- Outcome of the waitForJob loop.  The timed-out constructor records the
elapsed milliseconds at which the loop gave up and whether the best-effort
cancel request was issued. -/
inductive WaitOutcome where
  | completed : WaitOutcome
  | jobFailed : SplunkAPIError → WaitOutcome
  | timedOut : Nat → Bool → SplunkAPIError → WaitOutcome
deriving DecidableEq, Repr

/-- The retryable timeout error reported by the waitForJob loop. -/
def timeoutError (timeout : Nat) : SplunkAPIError :=
  { message := "Search job timed out after " ++ toString timeout ++ " seconds",
    statusCode := Option.none, isRetryable := true }

/-- Failure reason of a failed job: the ERROR and FATAL message texts
joined, or a generic message when that is empty. -/
def jobFailureMessage (status : SplunkJobStatus) : String :=
  let joined := String.intercalate "; "
    ((status.messages.filter (fun m => m.type == "ERROR" || m.type == "FATAL")).map
      (fun m => m.text))
  if joined = "" then "Unknown error" else joined

/-- One-shot description of the polling loop of waitForJob.  statuses n is
the backend job status observed by the n-th poll; pollMs n is the time the
n-th status request takes, on top of the fixed 500 ms sleep; cancelFails
tells whether the best-effort cancel request itself fails (its outcome is
swallowed either way).  The loop runs while the elapsed time is below
timeout seconds. -/
def waitForJobLoop (statuses : Nat → SplunkJobStatus) (pollMs : Nat → Nat)
    (timeout : Nat) (i : Nat) (elapsed : Nat) : WaitOutcome :=
  if h : elapsed < timeout * 1000 then
    let status := statuses i
    if status.isDone then
      if status.isFailed then
        .jobFailed { message := "Search job failed: " ++ jobFailureMessage status }
      else .completed
    else waitForJobLoop statuses pollMs timeout (i + 1) (elapsed + (pollMs i + 500))
  else
    .timedOut elapsed true
      { message := "Search job timed out after " ++ toString timeout ++ " seconds",
        statusCode := Option.none, isRetryable := true }
termination_by timeout * 1000 - elapsed
decreasing_by omega

/-- waitForJob in the source: poll from time zero.  The cancelFails flag
records whether the remote cancel on timeout fails; the outcome does not
depend on it because cancel errors are swallowed. -/
def waitForJob (statuses : Nat → SplunkJobStatus) (pollMs : Nat → Nat)
    (cancelFails : Bool) (timeout : Nat) : WaitOutcome :=
  waitForJobLoop statuses pollMs timeout 0 0

/-- The message naming the issues selected by a filter, as built by
assertQuerySafe. -/
def issuesMessage (msgStart : String) (p : SecurityIssue → Bool) (q : String) : String :=
  msgStart ++ String.intercalate ", "
    ((((scanQuery q).issues).filter p).map (fun i => i.description))

/-! ## Concrete inputs used to settle claims -/

/-- Environment whose parse function accepts exactly one timestamp text. -/
def exEnvC5 : EtlEnv :=
  { parseTime := fun s => if s = "2024" then Option.some 0 else Option.none, now := 0 }

/-- Event with a parsable timestamp. -/
def exEventGood : Event := { _time := "2024", _raw := "x" }

/-- Event with an unparsable timestamp. -/
def exEventBad : Event := { _time := "nope", _raw := "y" }

/-- Result mixing one unparsable-timestamp event with one recent event. -/
def exResultC5 : SplunkSearchResult :=
  { events := [exEventBad, exEventGood], totalEvents := 2, returnedEvents := 2,
    truncated := false, searchId := "sid", executionTimeMs := 10 }

/-- Nonempty result whose only event has an unparsable timestamp. -/
def exResultC5b : SplunkSearchResult :=
  { events := [exEventBad], totalEvents := 1, returnedEvents := 1,
    truncated := false, searchId := "sid", executionTimeMs := 10 }

/-- Result carrying an error together with a search id and a fast
execution time. -/
def exResultC6 : SplunkSearchResult :=
  { events := [], totalEvents := 0, returnedEvents := 0, truncated := false,
    searchId := "sid", executionTimeMs := 50, error := Option.some "boom" }

/-! ## Helper lemmas -/

theorem riskRank_le_four (r : Risk) : riskRank r ≤ 4 := by
  cases r <;> simp [riskRank]

theorem determineRiskLevel_cons (i : SecurityIssue) (rest : List SecurityIssue) :
    determineRiskLevel (i :: rest) = riskMax (sevRisk i.severity) (determineRiskLevel rest) := by
  cases rest with
  | nil =>
      cases hsev : i.severity <;>
        simp [determineRiskLevel, riskMax, sevRisk, riskRank, hsev]
  | cons j rest2 =>
      cases hsev : i.severity <;>
        cases hc : (j :: rest2).any (fun k => k.severity == Severity.critical) <;>
        cases hh : (j :: rest2).any (fun k => k.severity == Severity.high) <;>
        cases hm : (j :: rest2).any (fun k => k.severity == Severity.medium) <;>
        simp [determineRiskLevel, List.any_cons, riskMax, sevRisk, riskRank,
          hsev, hc, hh, hm]

theorem determineRiskLevel_eq_maxRisk :
    ∀ issues : List SecurityIssue, determineRiskLevel issues = maxRisk issues
  | [] => rfl
  | i :: rest => by
      rw [determineRiskLevel_cons, determineRiskLevel_eq_maxRisk rest]; rfl

theorem determineRiskLevel_eq_none_iff (issues : List SecurityIssue) :
    determineRiskLevel issues = Risk.none ↔ issues = [] := by
  cases issues with
  | nil => simp [determineRiskLevel]
  | cons i rest =>
      simp only [determineRiskLevel, List.isEmpty_cons, if_false, Bool.false_eq_true]
      split_ifs <;> simp

theorem filter_length_pos_iff_any {α : Type} (p : α → Bool) (l : List α) :
    0 < (l.filter p).length ↔ l.any p = true := by
  rw [List.length_pos, Ne, List.filter_eq_nil_iff, List.any_eq_true]
  push_neg
  constructor
  · rintro ⟨a, ha, hp⟩
    exact ⟨a, ha, by simpa using hp⟩
  · rintro ⟨a, ha, hp⟩
    exact ⟨a, ha, by simpa using hp⟩

theorem scanIssues_severity_ne_low (q : String) :
    ∀ i ∈ scanIssues q, i.severity ≠ Severity.low := by
  intro i hi
  have hspl : ∀ r ∈ SPL_INJECTION_PATTERNS, r.severity ≠ Severity.low := by decide
  simp only [scanIssues] at hi
  rcases List.mem_append.mp hi with habc | hd
  · rcases List.mem_append.mp habc with hab | hc
    · rcases List.mem_append.mp hab with ha | hb
      · obtain ⟨r, hr, hri⟩ := List.mem_map.mp ha
        subst hri
        simp
      · obtain ⟨r, hr, hri⟩ := List.mem_map.mp hb
        subst hri
        simpa using hspl r (List.mem_filter.mp hr).1
    · obtain ⟨r, hr, hri⟩ := List.mem_map.mp hc
      subst hri
      simp
  · obtain ⟨r, hr, hri⟩ := List.mem_map.mp hd
    subst hri
    simp

theorem determineRiskLevel_rank_ge_two (issues : List SecurityIssue)
    (hne : issues ≠ []) (hlow : ∀ i ∈ issues, i.severity ≠ Severity.low) :
    2 ≤ riskRank (determineRiskLevel issues) := by
  have hempty : issues.isEmpty = false := by
    simpa [List.isEmpty_iff] using hne
  unfold determineRiskLevel
  rw [hempty]
  simp only [Bool.false_eq_true, if_false]
  split_ifs with h1 h2 h3
  · simp [riskRank]
  · simp [riskRank]
  · simp [riskRank]
  · exfalso
    obtain ⟨j, hj⟩ := List.exists_mem_of_ne_nil issues hne
    have hc := List.any_eq_false.mp (Bool.eq_false_iff.mpr h1) j hj
    have hh := List.any_eq_false.mp (Bool.eq_false_iff.mpr h2) j hj
    have hm := List.any_eq_false.mp (Bool.eq_false_iff.mpr h3) j hj
    have := hlow j hj
    cases hjs : j.severity <;> simp_all

/-! ## Claim C2: verdict shape of scanQuery -/

/-- Claim C2: for every input string, the verdict of scanQuery has
safe true exactly when the issue list is empty, risk equal to the maximum
severity of the matched issues (the bottom level exactly when the list is
empty), and a query matching none of the listed patterns produces the
all-clear verdict. -/
theorem scanQuery_verdict_shape (q : String) :
    ((scanQuery q).safe = true ↔ (scanQuery q).issues = []) ∧
    (scanQuery q).risk = maxRisk ((scanQuery q).issues) ∧
    ((scanQuery q).risk = Risk.none ↔ (scanQuery q).issues = []) ∧
    (matchesNoPattern q = true →
      scanQuery q = { safe := true, risk := Risk.none, issues := [] }) := by
  refine ⟨?_, ?_, ?_, ?_⟩
  · exact List.isEmpty_iff
  · exact determineRiskLevel_eq_maxRisk (scanIssues q)
  · exact determineRiskLevel_eq_none_iff (scanIssues q)
  · intro h
    simp only [matchesNoPattern, Bool.and_eq_true, List.all_eq_true] at h
    obtain ⟨⟨⟨h1, h2⟩, h3⟩, h4⟩ := h
    have hros : scanIssues q = [] := by
      simp only [scanIssues, List.append_eq_nil, List.map_eq_nil_iff,
        List.filter_eq_nil_iff]
      refine ⟨⟨⟨fun r hr => ?_, fun r hr => ?_⟩, fun r hr => ?_⟩, fun r hr => ?_⟩
      · simpa using h1 r hr
      · simpa using h2 r hr
      · simpa using h3 r hr
      · simpa using h4 r hr
    simp [scanQuery, hros, determineRiskLevel]

/-- Witness for C2 at a pattern-free query. -/
theorem scanQuery_verdict_shape_witness :
    scanQuery "index=main error" = { safe := true, risk := Risk.none, issues := [] } :=
  (scanQuery_verdict_shape "index=main error").2.2.2 (by decide)

/-! ## Claim C9: the low risk level is unreachable -/

/-- Claim C9: scanQuery never reports the low risk level; every listed
pattern carries severity medium, high or critical, so an unsafe verdict
has risk at least medium. -/
theorem scanQuery_risk_never_low (q : String) :
    (scanQuery q).risk ≠ Risk.low ∧
    ((scanQuery q).safe = false → 2 ≤ riskRank ((scanQuery q).risk)) := by
  have core : (scanQuery q).safe = false → 2 ≤ riskRank ((scanQuery q).risk) := by
    intro h
    have hne : scanIssues q ≠ [] := by
      intro hnil
      simp [scanQuery, hnil] at h
    exact determineRiskLevel_rank_ge_two (scanIssues q) hne (scanIssues_severity_ne_low q)
  refine ⟨?_, core⟩
  by_cases hsafe : (scanQuery q).safe = false
  · have := core hsafe
    intro hlow
    rw [hlow] at this
    simp [riskRank] at this
  · have hempty : scanIssues q = [] := by
      have : (scanIssues q).isEmpty = true := by
        simpa [scanQuery] using hsafe
      simpa [List.isEmpty_iff] using this
    have : (scanQuery q).risk = Risk.none := by
      simp [scanQuery, hempty, determineRiskLevel]
    rw [this]
    simp

/-- Witness for C9 at a query that matches a medium-severity pattern. -/
theorem scanQuery_risk_never_low_witness :
    2 ≤ riskRank ((scanQuery "visit https://evil.example/x").risk) :=
  (scanQuery_risk_never_low "visit https://evil.example/x").2 (by decide)

/-! ## Claim C8: scanning is case-insensitive -/

/-- Claim C8: the verdict depends only on the lowercased query, so queries
that agree up to case trigger exactly the same issues; in particular the
three case variants of the pipe-delete query all trigger the
read-only-violation DELETE issue. -/
theorem scanQuery_case_insensitive :
    (∀ q₁ q₂ : String, lowerChars q₁ = lowerChars q₂ → scanQuery q₁ = scanQuery q₂) ∧
    scanQuery "| DELETE" = scanQuery "| delete" ∧
    scanQuery "| DeLeTe" = scanQuery "| delete" ∧
    (scanQuery "| delete").issues.any
      (fun i => i.type == IssueType.read_only_violation &&
        i.description == "DELETE command detected") = true := by
  have key : ∀ q₁ q₂ : String, lowerChars q₁ = lowerChars q₂ → scanQuery q₁ = scanQuery q₂ := by
    intro q₁ q₂ h
    simp only [scanQuery, scanIssues, RE.test, h]
  exact ⟨key, key _ _ (by decide), key _ _ (by decide), by decide⟩

/-- Witness for C8 at the uppercase variant. -/
theorem scanQuery_case_insensitive_witness :
    scanQuery "| DELETE" = scanQuery "| delete" :=
  scanQuery_case_insensitive.1 "| DELETE" "| delete" (by decide)

/-! ## Claim C1: error priority of assertQuerySafe -/

/-- Claim C1: on an unsafe query, assertQuerySafe fails with the
read-only-violation error if any read-only issue matched, else with the
injection error if any critical issue matched, else with the generic
security error naming all matched issues; and a query matching any
read-only pattern always gets the read-only-specific error. -/
theorem assertQuerySafe_priority (q : String) :
    ((scanQuery q).safe = false →
      (hasReadOnlyIssue (scanQuery q) = true →
        assertQuerySafe q = .error (.readOnlyViolationError
          (issuesMessage "Query contains read-only violations: "
            (fun i => i.type == IssueType.read_only_violation) q))) ∧
      (hasReadOnlyIssue (scanQuery q) = false → hasCriticalIssue (scanQuery q) = true →
        assertQuerySafe q = .error (.injectionError
          (issuesMessage "Query contains critical security issues: "
            (fun i => i.severity == Severity.critical) q))) ∧
      (hasReadOnlyIssue (scanQuery q) = false → hasCriticalIssue (scanQuery q) = false →
        assertQuerySafe q = .error (.securityError
          ("Query failed security scan (" ++ ((scanQuery q).risk).toText ++ " risk): " ++
            String.intercalate ", " (((scanQuery q).issues).map (fun i => i.description)))))) ∧
    (READ_ONLY_VIOLATIONS.any (fun r => r.pattern.test q) = true →
      hasReadOnlyIssue (scanQuery q) = true ∧
      assertQuerySafe q = .error (.readOnlyViolationError
        (issuesMessage "Query contains read-only violations: "
          (fun i => i.type == IssueType.read_only_violation) q))) := by
  have main : (scanQuery q).safe = false →
      (hasReadOnlyIssue (scanQuery q) = true →
        assertQuerySafe q = .error (.readOnlyViolationError
          (issuesMessage "Query contains read-only violations: "
            (fun i => i.type == IssueType.read_only_violation) q))) ∧
      (hasReadOnlyIssue (scanQuery q) = false → hasCriticalIssue (scanQuery q) = true →
        assertQuerySafe q = .error (.injectionError
          (issuesMessage "Query contains critical security issues: "
            (fun i => i.severity == Severity.critical) q))) ∧
      (hasReadOnlyIssue (scanQuery q) = false → hasCriticalIssue (scanQuery q) = false →
        assertQuerySafe q = .error (.securityError
          ("Query failed security scan (" ++ ((scanQuery q).risk).toText ++ " risk): " ++
            String.intercalate ", " (((scanQuery q).issues).map (fun i => i.description))))) := by
    intro hsafe
    have hif : ¬((scanQuery q).safe = true) := by
      rw [hsafe]
      exact Bool.false_ne_true
    have hpos : ∀ p : SecurityIssue → Bool, ((scanQuery q).issues).any p = true →
        0 < (((scanQuery q).issues).filter p).length :=
      fun p h => (filter_length_pos_iff_any p _).mpr h
    have hneg : ∀ p : SecurityIssue → Bool, ((scanQuery q).issues).any p = false →
        ¬(0 < (((scanQuery q).issues).filter p).length) := by
      intro p h hcon
      have h2 := (filter_length_pos_iff_any p _).mp hcon
      rw [h] at h2
      exact Bool.false_ne_true h2
    refine ⟨fun hro => ?_, fun hro hcrit => ?_, fun hro hcrit => ?_⟩
    · rw [assertQuerySafe, if_neg hif, if_pos (hpos _ hro)]
      rfl
    · rw [assertQuerySafe, if_neg hif, if_neg (hneg _ hro), if_pos (hpos _ hcrit)]
      rfl
    · rw [assertQuerySafe, if_neg hif, if_neg (hneg _ hro), if_neg (hneg _ hcrit)]
  refine ⟨main, ?_⟩
  intro hpat
  obtain ⟨r, hr, htest⟩ := List.any_eq_true.mp hpat
  have hmem : SecurityIssue.mk IssueType.read_only_violation Severity.critical
      r.description r.source ∈ scanIssues q := by
    apply List.mem_append_left
    apply List.mem_append_left
    apply List.mem_append_left
    exact List.mem_map.mpr ⟨r, List.mem_filter.mpr ⟨hr, htest⟩, rfl⟩
  have hsafe : (scanQuery q).safe = false := by
    have hne : scanIssues q ≠ [] := List.ne_nil_of_mem hmem
    simp [scanQuery, List.isEmpty_iff, hne]
  have hro : hasReadOnlyIssue (scanQuery q) = true :=
    List.any_eq_true.mpr ⟨_, hmem, by simp⟩
  exact ⟨hro, (main hsafe).1 hro⟩

/-- Witness for C1 at the pipe-delete query. -/
theorem assertQuerySafe_priority_witness :
    assertQuerySafe "| delete" = .error (.readOnlyViolationError
      (issuesMessage "Query contains read-only violations: "
        (fun i => i.type == IssueType.read_only_violation) "| delete")) ∧
    hasReadOnlyIssue (scanQuery "| delete") = true := by
  have hmain := ((assertQuerySafe_priority "| delete").1 (by decide)).1 (by decide)
  have hpart := (assertQuerySafe_priority "| delete").2 (by decide)
  exact ⟨hmain, hpart.1⟩

/-! ## Claim C4: parameter scanning (corrected) -/

/-- Counterexample for C4 as stated: two array elements at distinct
indices produce identical issue descriptions containing no digit at all,
so descriptions are prefixed only with the parameter name and a literal
pair of brackets, never with the element index. -/
theorem scanParameters_no_index_counterexample :
    (scanParameters [("correlation_fields",
        ParamValue.arr [ParamValue.str "| delete", ParamValue.str "| delete"])]).issues.map
      (fun i => i.description) =
      ["[correlation_fields[]] DELETE command detected",
       "[correlation_fields[]] DELETE command detected"] ∧
    ("[correlation_fields[]] DELETE command detected").data.all (fun c => !c.isDigit) = true ∧
    (scanParameters [("correlation_fields",
        ParamValue.arr [ParamValue.str "| delete", ParamValue.str "| delete"])]).safe
      = false := by
  refine ⟨by decide, by decide, by decide⟩

theorem paramIssues_eq_nil (k : String) (v : ParamValue) :
    paramIssues k v = [] ↔ paramValueSafe v = true := by
  cases v with
  | str s =>
      simp [paramIssues, paramValueSafe, List.map_eq_nil_iff, scanQuery, List.isEmpty_iff]
  | arr items =>
      simp only [paramIssues, paramValueSafe, List.flatMap_eq_nil_iff, List.all_eq_true]
      refine ⟨fun h it hit => ?_, fun h it hit => ?_⟩
      · have := h it hit
        cases it <;>
          simpa [scanQuery, List.isEmpty_iff, List.map_eq_nil_iff] using this
      · have := h it hit
        cases it <;>
          simpa [scanQuery, List.isEmpty_iff, List.map_eq_nil_iff] using this
  | other => simp [paramIssues, paramValueSafe]

/-- Claim C4 as amended: every string parameter and every string element of
an array parameter is scanned with scanQuery (the record is safe exactly
when all of them are); issue descriptions are prefixed with the bracketed
parameter name — with an empty pair of brackets appended for array
elements, not the element index; and a correlation-field list with an
unsafe element makes the parameter record unsafe. -/
theorem scanParameters_spec (params : List (String × ParamValue)) :
    ((scanParameters params).safe = true ↔
      params.all (fun kv => paramValueSafe kv.2) = true) ∧
    (∀ i ∈ (scanParameters params).issues,
      ∃ k, k ∈ params.map Prod.fst ∧
        ∃ d, i.description = "[" ++ k ++ "] " ++ d ∨
          i.description = "[" ++ k ++ "[]] " ++ d) ∧
    (∀ fields : List String, ∀ f ∈ fields, (scanQuery f).safe = false →
      (scanParameters
        [("correlation_fields", ParamValue.arr (fields.map ParamValue.str))]).safe = false) := by
  refine ⟨?_, ?_, ?_⟩
  · show (scanParamIssues params).isEmpty = true ↔ _
    rw [List.isEmpty_iff, scanParamIssues, List.flatMap_eq_nil_iff, List.all_eq_true]
    refine ⟨fun h kv hkv => ?_, fun h kv hkv => ?_⟩
    · exact (paramIssues_eq_nil kv.1 kv.2).mp (h kv hkv)
    · exact (paramIssues_eq_nil kv.1 kv.2).mpr (h kv hkv)
  · intro i hi
    obtain ⟨kv, hkv, hik⟩ := List.mem_flatMap.mp hi
    obtain ⟨k, v⟩ := kv
    have hk : k ∈ params.map Prod.fst := List.mem_map.mpr ⟨(k, v), hkv, rfl⟩
    cases v with
    | str s =>
        obtain ⟨i0, _, hi0⟩ := List.mem_map.mp hik
        exact ⟨k, hk, i0.description, Or.inl (by rw [← hi0])⟩
    | arr items =>
        obtain ⟨item, _, hik2⟩ := List.mem_flatMap.mp hik
        cases item with
        | str s2 =>
            obtain ⟨i0, _, hi0⟩ := List.mem_map.mp hik2
            exact ⟨k, hk, i0.description, Or.inr (by rw [← hi0])⟩
        | arr l => simp [paramIssues] at hik2
        | other => simp [paramIssues] at hik2
    | other => simp [paramIssues] at hik
  · intro fields f hf hunsafe
    have h1 : scanIssues f ≠ [] := by
      intro h
      rw [scanQuery] at hunsafe
      simp [h] at hunsafe
    obtain ⟨i0, hi0⟩ := List.exists_mem_of_ne_nil _ h1
    have hmem : ({ i0 with description := "[" ++ "correlation_fields" ++ "[]] " ++ i0.description }
        : SecurityIssue) ∈ scanParamIssues
          [("correlation_fields", ParamValue.arr (fields.map ParamValue.str))] := by
      apply List.mem_flatMap.mpr
      refine ⟨("correlation_fields", ParamValue.arr (fields.map ParamValue.str)), by simp, ?_⟩
      apply List.mem_flatMap.mpr
      refine ⟨ParamValue.str f, List.mem_map_of_mem _ hf, ?_⟩
      exact List.mem_map_of_mem _ hi0
    have hne := List.ne_nil_of_mem hmem
    show (scanParamIssues _).isEmpty = false
    rw [Bool.eq_false_iff]
    intro hcontra
    exact hne (List.isEmpty_iff.mp hcontra)

/-- Witness for C4 as amended: an injection pattern inside a
correlation-field array element fails safety, and a concrete issue
description decomposes as the bracketed parameter name followed by the
underlying description. -/
theorem scanParameters_spec_witness :
    (scanParameters
      [("correlation_fields", ParamValue.arr [ParamValue.str "| python"])]).safe = false ∧
    (∃ k, k ∈ ([("q", ParamValue.str "| delete")].map Prod.fst) ∧
      ∃ d, ("[q] DELETE command detected" : String) = "[" ++ k ++ "] " ++ d ∨
        ("[q] DELETE command detected" : String) = "[" ++ k ++ "[]] " ++ d) := by
  constructor
  · have h := (scanParameters_spec []).2.2 ["| python"] "| python" (by decide) (by decide)
    simpa using h
  · have hmem : (⟨IssueType.read_only_violation, Severity.critical,
        "[q] DELETE command detected", "\\|\\s*delete\\b"⟩ : SecurityIssue) ∈
        (scanParameters [("q", ParamValue.str "| delete")]).issues := by decide
    have h2 := (scanParameters_spec [("q", ParamValue.str "| delete")]).2.1 _ hmem
    simpa using h2

/-! ## Claim C5: freshness dimension (corrected) -/

/-- Counterexample for C5 as stated: a nonempty result whose only event
has an unparsable timestamp scores 0 — the event counts in the
denominator and never the numerator — while the claim's unparsable
clause predicts 0.5. -/
theorem computeFreshness_claim_counterexample :
    computeFreshness exEnvC5 exResultC5b = 0 ∧
    freshnessClaim exEnvC5 exResultC5b = 1 / 2 ∧
    computeFreshness exEnvC5 exResultC5b ≠ freshnessClaim exEnvC5 exResultC5b := by
  have h1 : computeFreshness exEnvC5 exResultC5b = 0 := by
    show (if exResultC5b.events.length = 0 then (0.5 : ℚ)
      else if exResultC5b.events.length = 0 then 0.5
      else ((exResultC5b.events.filter (fun e => eventRecent exEnvC5 e)).length : ℚ) /
        (exResultC5b.events.length : ℚ)) = 0
    rw [if_neg (by decide : ¬(exResultC5b.events.length = 0)),
      if_neg (by decide : ¬(exResultC5b.events.length = 0)),
      (by decide : exResultC5b.events.filter (fun e => eventRecent exEnvC5 e) = [])]
    norm_num
  have hcond : (decide (exResultC5b.events.length = 0) ||
      (exResultC5b.events.all fun e => !eventParsable exEnvC5 e)) = true := by decide
  have h2 : freshnessClaim exEnvC5 exResultC5b = 1 / 2 := by
    simp only [freshnessClaim]
    rw [if_pos hcond]
    norm_num
  refine ⟨h1, h2, ?_⟩
  rw [h1, h2]
  norm_num

/-- Claim C5 as amended: the freshness dimension is 0.5 with zero events
and otherwise the fraction, among all events, of those whose timestamp
parses and lies within 24 hours of the evaluation time; consequently a
nonempty result whose timestamps are all unparsable scores 0, not 0.5. -/
theorem computeFreshness_eq_amended (env : EtlEnv) (result : SplunkSearchResult) :
    computeFreshness env result = freshnessAmended env result ∧
    (result.events.length ≠ 0 →
      (result.events.all fun e => !eventParsable env e) = true →
      computeFreshness env result = 0) := by
  have heq : computeFreshness env result = freshnessAmended env result := by
    show (if result.events.length = 0 then (0.5 : ℚ)
        else if result.events.length = 0 then 0.5
        else ((result.events.filter (fun e => eventRecent env e)).length : ℚ) /
          (result.events.length : ℚ)) =
      (if result.events.length = 0 then (0.5 : ℚ)
        else ((result.events.filter (fun e => eventRecent env e)).length : ℚ) /
          (result.events.length : ℚ))
    by_cases h0 : result.events.length = 0
    · rw [if_pos h0, if_pos h0]
    · rw [if_neg h0, if_neg h0]
  refine ⟨heq, fun hne hall => ?_⟩
  rw [heq]
  have hemp : result.events.filter (fun e => eventRecent env e) = [] := by
    rw [List.filter_eq_nil_iff]
    intro e he hrec
    have hp := List.all_eq_true.mp hall e he
    rcases hpt : env.parseTime (stripFrac e._time) with _ | t
    · simp [eventRecent, hpt] at hrec
    · have hpar : eventParsable env e = true := by
        simp [eventParsable, hpt]
      simp [hpar] at hp
  simp only [freshnessAmended]
  rw [if_neg hne, hemp]
  norm_num

/-- Witness for C5 as amended, discharging the all-unparsable hypotheses
at a concrete input, and instantiating the equality at the
mixed-parsability input (where the real code yields 1/2, the fraction
over all events). -/
theorem computeFreshness_eq_amended_witness :
    computeFreshness exEnvC5 exResultC5b = 0 ∧
    computeFreshness exEnvC5 exResultC5 = freshnessAmended exEnvC5 exResultC5 :=
  ⟨(computeFreshness_eq_amended exEnvC5 exResultC5b).2 (by decide) (by decide),
    (computeFreshness_eq_amended exEnvC5 exResultC5).1⟩

/-! ## Claim C6: integrity dimension (corrected) -/

/-- Counterexample for C6 as stated: a result with an error, a search id
and a 50 ms execution still gets the 0.05 fast-execution boost in the
code (1 - 0.5 + 0.05 = 0.55), while the claim says the boost requires no
error (giving 0.5). -/
theorem computeIntegrity_claim_counterexample :
    computeIntegrity exResultC6 = 11 / 20 ∧
    integrityClaim exResultC6 = 1 / 2 ∧
    computeIntegrity exResultC6 ≠ integrityClaim exResultC6 := by
  have he : errTruthy exResultC6 = true := by decide
  have hs : (searchIdTruthy exResultC6 && decide (exResultC6.executionTimeMs > 0)) = true := by
    decide
  have hlen : ¬(exResultC6.events.length > 0) := by decide
  have hfast : exResultC6.executionTimeMs < 100 := by decide
  have h1 : computeIntegrity exResultC6 = 11 / 20 := by
    simp only [computeIntegrity, he, hs, if_true, hlen, if_neg, if_false]
    rw [if_pos hfast]
    norm_num [sup_eq_max, inf_eq_min, min_def, max_def]
  have h2 : integrityClaim exResultC6 = 1 / 2 := by
    simp [integrityClaim, he, hlen]
    norm_num [sup_eq_max, inf_eq_min, min_def, max_def]
  refine ⟨h1, h2, ?_⟩
  rw [h1, h2]
  norm_num

/-- Claim C6 as amended: integrity starts at 1.0, subtracts 0.5 on a
truthy error, subtracts 0.3 times the fraction of events with blank raw
text, adds 0.05 when the result has a truthy search id and an execution
time strictly between 0 and 100 ms (independently of the error), and is
clamped to the unit interval. -/
theorem computeIntegrity_eq_amended (result : SplunkSearchResult) :
    computeIntegrity result = integrityAmended result := by
  have hx : ∀ x y : ℚ, x = y → max 0 (min 1 x) = max 0 (min 1 y) := by
    intro x y h
    rw [h]
  unfold computeIntegrity integrityAmended
  apply hx
  cases herr : errTruthy result <;>
    by_cases hev : result.events.length > 0 <;>
    cases hsid : searchIdTruthy result <;>
    by_cases hpos : result.executionTimeMs > 0 <;>
    by_cases hfast : result.executionTimeMs < 100 <;>
    simp [herr, hev, hsid, hpos, hfast]

/-! ## Claim C10: the server trust pipeline never sees errors or
aggregations -/

theorem head_of_strHasPrefix (p w : String) (hp : p.data ≠ []) (h : strHasPrefix p w = true) :
    w.data.head? = p.data.head? := by
  unfold strHasPrefix at h
  have htake : w.data.take p.data.length = p.data := by
    simpa using h
  cases hw : w.data with
  | nil =>
      rw [hw] at htake
      simp at htake
      exact absurd htake hp
  | cons c cs =>
      cases hpd : p.data with
      | nil => exact absurd hpd hp
      | cons q qs =>
          rw [hw, hpd] at htake
          simp only [List.length_cons, List.take_succ_cons] at htake
          injection htake with h1 h2
          simp [hw, hpd, h1]

theorem str_head_append (a b : String) (c : Char) (h : a.data.head? = some c) :
    (a ++ b).data.head? = some c := by
  rw [String.data_append]
  cases ha : a.data with
  | nil =>
      rw [ha] at h
      simp at h
  | cons x xs =>
      rw [ha] at h
      simp only [List.head?_cons, Option.some.injEq] at h
      simp [h]

theorem strHasPrefix_qe_false (w : String) (c : Char) (hc : w.data.head? = some c)
    (hne : c ≠ 'Q') : strHasPrefix "Query error" w = false := by
  cases hqe : strHasPrefix "Query error" w with
  | false => rfl
  | true =>
      have hh := head_of_strHasPrefix "Query error" w (by decide) hqe
      rw [hc] at hh
      have hq : ("Query error" : String).data.head? = some 'Q' := by decide
      rw [hq] at hh
      exact absurd (Option.some.inj hh) hne

theorem generateFactors_no_query_error (result : SplunkSearchResult)
    (dims : TrustDimension) (mf : List String) (herr : errTruthy result = false) :
    ((generateFactors result dims mf).warnings.all
      (fun w => !(strHasPrefix "Query error" w))) = true := by
  unfold generateFactors
  simp only [List.all_append, Bool.and_eq_true]
  refine ⟨⟨⟨⟨⟨?_, ?_⟩, ?_⟩, ?_⟩, ?_⟩, ?_⟩
  · by_cases h : dims.completeness < 0.7
    · simp only [if_pos h, List.all_cons, List.all_nil, Bool.and_true]
      rw [strHasPrefix_qe_false _ 'L'
        (str_head_append _ _ _ (str_head_append _ _ _ (by decide))) (by decide)]
      rfl
    · simp [h]
  · by_cases h : dims.freshness < 0.5
    · simp only [if_pos h, List.all_cons, List.all_nil, Bool.and_true]
      rw [strHasPrefix_qe_false _ 'S' (str_head_append _ _ _ (by decide)) (by decide)]
      rfl
    · simp [h]
  · by_cases h : result.truncated
    · simp only [if_pos h, List.all_cons, List.all_nil, Bool.and_true]
      rw [strHasPrefix_qe_false _ 'R'
        (str_head_append _ _ _ (str_head_append _ _ _ (str_head_append _ _ _
          (str_head_append _ _ _ (by decide))))) (by decide)]
      rfl
    · simp [h]
  · simp [herr]
  · by_cases h : dims.coherence < 0.7
    · simp only [if_pos h, List.all_cons, List.all_nil, Bool.and_true]
      decide
    · simp [h]
  · by_cases h : result.executionTimeMs > 10000
    · simp only [if_pos h, List.all_cons, List.all_nil, Bool.and_true]
      rw [strHasPrefix_qe_false _ 'S'
        (str_head_append _ _ _ (str_head_append _ _ _ (by decide))) (by decide)]
      rfl
    · simp [h]

theorem serverResult_authority (events : List Event) (metadata : ToolMetadata) :
    computeAuthority (serverSearchResult events metadata) = 9 / 10 := by
  have hsid : searchIdTruthy (serverSearchResult events metadata) = true := by
    show (jsOrStr metadata.searchId "unknown" != "") = true
    rcases ms : metadata.searchId with _ | s
    · decide
    · by_cases hs : s = ""
      · rw [hs]
        decide
      · simp [jsOrStr, hs]
  have herr : errTruthy (serverSearchResult events metadata) = false := rfl
  have hagg : aggTruthy (serverSearchResult events metadata) = false := rfl
  unfold computeAuthority
  simp only [hsid, herr, hagg, Bool.not_false, Bool.and_self, if_true, if_false,
    Bool.false_eq_true]
  norm_num [inf_eq_min, min_def]

/-- Claim C10: the search result assembled by the server for trust scoring
always carries no error and no aggregations; consequently the authority
dimension of the attached trust metadata is exactly 0.9 and no warning of
the trust report ever begins with the query-error prefix. -/
theorem computeTrustForResult_error_free (env : EtlEnv) (settings : EtlSettings)
    (events : List Event) (metadata : ToolMetadata) :
    (serverSearchResult events metadata).error = Option.none ∧
    (serverSearchResult events metadata).aggregations = Option.none ∧
    (computeTrustForResult env settings events metadata).dimensions.authority = 9 / 10 ∧
    ((computeTrustForResult env settings events metadata).factors.warnings.all
      (fun w => !(strHasPrefix "Query error" w))) = true := by
  refine ⟨rfl, rfl, ?_, ?_⟩
  · show computeAuthority (serverSearchResult events metadata) = 9 / 10
    exact serverResult_authority events metadata
  · show ((generateFactors (serverSearchResult events metadata)
        (computeDimensions env (serverSearchResult events metadata)).1
        (computeDimensions env (serverSearchResult events metadata)).2).warnings.all
      (fun w => !(strHasPrefix "Query error" w))) = true
    exact generateFactors_no_query_error _ _ _ rfl

/-! ## Claim C3: the truncated flag (corrected) -/

/-- Counterexample for C3 as stated: with a result cap of 5, an empty
result batch and a job total of 1, the code reports truncated = false even
though the total exceeds the number of returned events. -/
theorem truncated_flag_counterexample :
    ¬(((searchResultOf "sid" [] 1 5 10).truncated = true) ↔
      (((searchResultOf "sid" [] 1 5 10).events.length : Int) <
        (searchResultOf "sid" [] 1 5 10).totalCount)) := by
  decide

/-- Claim C3 as amended: for every result produced by search and by
runSavedSearch, the truncated flag equals the comparison of the job's
authoritative total count against the requested result cap (the
configured maximum for saved searches), not against the number of events
contained in the result. -/
theorem truncated_flag_amended (sid : String) (rawEvents : List RawSplunkEvent)
    (statusResultCount maxResults executionTimeMs : Int) :
    ((searchResultOf sid rawEvents statusResultCount maxResults executionTimeMs).truncated
      = true ↔ maxResults < statusResultCount) ∧
    ((runSavedSearchResultOf sid rawEvents statusResultCount maxResults
        executionTimeMs).truncated = true ↔ maxResults < statusResultCount) := by
  constructor <;> simp [searchResultOf, runSavedSearchResultOf]

/-- Witness for C3 as amended: a total of 7 against a cap of 5 is
reported truncated. -/
theorem truncated_flag_amended_witness :
    (searchResultOf "sid" [] 7 5 10).truncated = true :=
  (truncated_flag_amended "sid" [] 7 5 10).1.mpr (by decide)

/-! ## Claim C7: waitForJob timeout behaviour -/

theorem waitForJobLoop_never_done (statuses : Nat → SplunkJobStatus) (pollMs : Nat → Nat)
    (timeout : Nat) (hnd : ∀ n, (statuses n).isDone = false) :
    ∀ fuel i elapsed, timeout * 1000 - elapsed ≤ fuel →
      ∃ e, waitForJobLoop statuses pollMs timeout i elapsed =
          .timedOut e true (timeoutError timeout) ∧
        timeout * 1000 ≤ e ∧ elapsed ≤ e := by
  intro fuel
  induction fuel with
  | zero =>
      intro i elapsed hf
      have hge : ¬(elapsed < timeout * 1000) := by omega
      rw [waitForJobLoop, dif_neg hge]
      exact ⟨elapsed, rfl, by omega, Nat.le_refl _⟩
  | succ f ih =>
      intro i elapsed hf
      by_cases hlt : elapsed < timeout * 1000
      · rw [waitForJobLoop, dif_pos hlt]
        simp only [hnd i, Bool.false_eq_true, if_false]
        obtain ⟨e, heq, hT, hel⟩ := ih (i + 1) (elapsed + (pollMs i + 500)) (by omega)
        exact ⟨e, heq, hT, by omega⟩
      · rw [waitForJobLoop, dif_neg hlt]
        exact ⟨elapsed, rfl, by omega, Nat.le_refl _⟩

theorem waitForJobLoop_timedOut_inv (statuses : Nat → SplunkJobStatus) (pollMs : Nat → Nat)
    (timeout : Nat) :
    ∀ fuel i elapsed, timeout * 1000 - elapsed ≤ fuel →
      ∀ e c err, waitForJobLoop statuses pollMs timeout i elapsed = .timedOut e c err →
        timeout * 1000 ≤ e ∧ c = true ∧ err.isRetryable = true := by
  intro fuel
  induction fuel with
  | zero =>
      intro i elapsed hf e c err heq
      have hge : ¬(elapsed < timeout * 1000) := by omega
      rw [waitForJobLoop, dif_neg hge] at heq
      injection heq with h1 h2 h3
      subst h1
      subst h2
      subst h3
      exact ⟨by omega, rfl, rfl⟩
  | succ f ih =>
      intro i elapsed hf e c err heq
      by_cases hlt : elapsed < timeout * 1000
      · rw [waitForJobLoop, dif_pos hlt] at heq
        by_cases hd : (statuses i).isDone = true
        · simp only [hd, if_true] at heq
          by_cases hfl : (statuses i).isFailed = true
          · simp only [hfl, if_true] at heq
            exact absurd heq (by simp)
          · have hfl2 : (statuses i).isFailed = false := Bool.eq_false_iff.mpr hfl
            simp only [hfl2, Bool.false_eq_true, if_false] at heq
            exact absurd heq (by simp)
        · have hd2 : (statuses i).isDone = false := Bool.eq_false_iff.mpr hd
          simp only [hd2, Bool.false_eq_true, if_false] at heq
          exact ih (i + 1) (elapsed + (pollMs i + 500)) (by omega) e c err heq
      · rw [waitForJobLoop, dif_neg hlt] at heq
        injection heq with h1 h2 h3
        subst h1
        subst h2
        subst h3
        exact ⟨by omega, rfl, rfl⟩

/-- Claim C7: when the backend never reports the job done, waitForJob
issues the best-effort cancel (whose own failure is swallowed: the
outcome does not depend on the cancel failing) and reports the retryable
timed-out failure; and a timed-out failure is only ever reported once the
elapsed time has reached the configured timeout. -/
theorem waitForJob_timeout (statuses : Nat → SplunkJobStatus) (pollMs : Nat → Nat)
    (cancelFails : Bool) (timeout : Nat) :
    ((∀ n, (statuses n).isDone = false) →
      ∃ e, waitForJob statuses pollMs cancelFails timeout =
          .timedOut e true (timeoutError timeout) ∧ timeout * 1000 ≤ e) ∧
    (∀ e c err, waitForJob statuses pollMs cancelFails timeout = .timedOut e c err →
      timeout * 1000 ≤ e ∧ c = true ∧ err.isRetryable = true) ∧
    waitForJob statuses pollMs true timeout = waitForJob statuses pollMs false timeout := by
  refine ⟨?_, ?_, rfl⟩
  · intro hnd
    obtain ⟨e, heq, hT, -⟩ :=
      waitForJobLoop_never_done statuses pollMs timeout hnd (timeout * 1000) 0 0 (by omega)
    exact ⟨e, heq, hT⟩
  · intro e c err heq
    exact waitForJobLoop_timedOut_inv statuses pollMs timeout (timeout * 1000) 0 0
      (by omega) e c err heq

/-- Witness for C7: a backend that never completes the job, polled with a
one-second timeout, yields the retryable timed-out outcome at or past the
timeout. -/
theorem waitForJob_timeout_witness :
    ∃ e, waitForJob (fun _ => {}) (fun _ => 0) false 1 =
        .timedOut e true (timeoutError 1) ∧ 1 * 1000 ≤ e ∧
        (timeoutError 1).isRetryable = true := by
  obtain ⟨e, heq, hT⟩ :=
    (waitForJob_timeout (fun _ => {}) (fun _ => 0) false 1).1 (fun _ => rfl)
  obtain ⟨-, -, hret⟩ :=
    (waitForJob_timeout (fun _ => {}) (fun _ => 0) false 1).2.1 e true (timeoutError 1) heq
  exact ⟨e, heq, hT, hret⟩

end SplunkMCP
